import Mathlib

/-!
Shallow embedding of the clipboard-write subsystem of the `fencecat`
repository (`src/clipboard.rs` and the tail of `src/main.rs`).

External effects — environment variables, search-path lookups, subprocess
spawns and the `arboard` library — are modelled by an oracle `World`.
Every function of the source becomes a Lean function of the `World`; the
observable subprocess and library invocations are collected in an event
trace so that ordering and short-circuit properties can be stated.
-/

/-- External tools the code may invoke. -/
inductive Tool
  | wlCopy
  | wlPaste
  | xclip
  | xsel
  | pbcopy
  | clipExe
  | powershell
deriving DecidableEq, Repr

/-- Compile-time target OS, for the `cfg(target_os = ...)` blocks of the
source; `linux` stands for every target that is neither macOS nor
Windows. -/
inductive TargetOS
  | linux
  | macos
  | windows
deriving DecidableEq, Repr

/-- Model of `std::process::ExitStatus`: whether `.success()` holds and the
text its `Display` implementation produces (such as "exit status: 1"). -/
structure ExitStatus where
  success : Bool
  display : String
deriving DecidableEq, Repr

/-- State of a spawned child as observed by `run_with_stdin`: whether
`child.stdin` is present, the outcome of `write_all` on it, and the
outcome of `wait`.  Errors carry their message strings. -/
structure ChildState where
  stdinSome : Bool
  writeAll : Except String Unit
  wait : Except String ExitStatus

/-- Outcome of `Command::spawn()`. -/
inductive SpawnResult
  | err (e : String)
  | ok (c : ChildState)

/-- Data captured by a completed `Command::output()` call: the exit status
and the stdout bytes. -/
structure OutputData where
  statusSuccess : Bool
  stdout : List Nat
deriving DecidableEq, Repr

/-- Outcome of `Command::output()`: either the invocation errored, or it
completed and captured output. -/
inductive OutputResult
  | err (e : String)
  | ok (o : OutputData)

/-- Oracle for everything outside the process: target OS, the three
environment-variable indicators, the search path, the behaviour of each
tool when spawned for writing resp. invoked with `output()`, and the two
stages of the `arboard` library fallback. -/
structure World where
  os : TargetOS
  waylandDisplay : Bool
  waylandSocket : Bool
  display : Bool
  onPath : Tool → Bool
  child : Tool → SpawnResult
  readOut : Tool → OutputResult
  arboardNew : Except String Unit
  arboardSet : Except String Unit

/-- Observable invocations performed by the cascade. -/
inductive Event
  | writeAttempt (t : Tool)
  | readAttempt (t : Tool)
  | libAttempt
deriving DecidableEq, Repr

/-- Function `is_wayland` of `clipboard.rs`: WAYLAND_DISPLAY or
WAYLAND_SOCKET is set. -/
def is_wayland (w : World) : Bool :=
  w.waylandDisplay || w.waylandSocket

/-- Function `is_x11` of `clipboard.rs`: DISPLAY is set. -/
def is_x11 (w : World) : Bool :=
  w.display

/-- Function `cmd_exists` of `clipboard.rs`: a search-path lookup. -/
def cmd_exists (w : World) (t : Tool) : Bool :=
  w.onPath t

/-- Stdio configuration of a spawned command. -/
inductive StdioMode
  | piped
  | nullDev
  | inherited
deriving DecidableEq, Repr

/-- Static shape of a `Command` before spawning. -/
structure CommandSpec where
  bin : String
  args : List String
  stdinMode : StdioMode
  stdoutMode : StdioMode
  stderrMode : StdioMode
deriving DecidableEq, Repr

/-- The `Command` built by `run_with_stdin` before it spawns: stdin piped,
stdout and stderr discarded. -/
def run_with_stdin_command (bin : String) (args : List String) : CommandSpec :=
  { bin := bin
    args := args
    stdinMode := StdioMode.piped
    stdoutMode := StdioMode.nullDev
    stderrMode := StdioMode.nullDev }

/-- Function `run_with_stdin` of `clipboard.rs`: spawn, write the payload
to the child's stdin when present, wait, and turn a non-success exit
status into an error carrying it. -/
def run_with_stdin (bin : String) (args : List String) (data : String)
    (sp : SpawnResult) : Except String Unit :=
  match sp with
  | SpawnResult.err e => Except.error e
  | SpawnResult.ok c =>
    match (if c.stdinSome then c.writeAll else Except.ok ()) with
    | Except.error e => Except.error e
    | Except.ok _ =>
      match c.wait with
      | Except.error e => Except.error e
      | Except.ok status =>
        if status.success then Except.ok ()
        else Except.error (bin ++ (" exited with status ") ++ status.display)

/-- Driver `wl_copy`: run wl-copy with an explicit MIME type and no
trailing newline, feeding it the payload. -/
def wl_copy (w : World) (text : String) : Except String Unit × List Event :=
  (run_with_stdin ("wl-copy") ["--type", "text/plain;charset=utf-8", "-n"] text
      (w.child Tool.wlCopy),
   [Event.writeAttempt Tool.wlCopy])

/-- Function `verify_wl_paste_non_empty`: when wl-paste is absent, assume
okay without spawning; otherwise run it and report whether stdout was
non-empty, treating an invocation error as okay. -/
def verify_wl_paste_non_empty (w : World) : Bool × List Event :=
  if !cmd_exists w Tool.wlPaste then
    (true, [])
  else
    ((match w.readOut Tool.wlPaste with
      | OutputResult.ok out => !out.stdout.isEmpty
      | OutputResult.err _ => true),
     [Event.readAttempt Tool.wlPaste])

/-- Driver `xclip_copy`: run xclip targeting the clipboard selection. -/
def xclip_copy (w : World) (text : String) : Except String Unit × List Event :=
  (run_with_stdin ("xclip") ["-selection", "clipboard"] text (w.child Tool.xclip),
   [Event.writeAttempt Tool.xclip])

/-- Function `verify_xclip_non_empty`: run the xclip read-back and report
whether stdout was non-empty, treating an invocation error as okay. -/
def verify_xclip_non_empty (w : World) : Bool × List Event :=
  ((match w.readOut Tool.xclip with
    | OutputResult.ok out => !out.stdout.isEmpty
    | OutputResult.err _ => true),
   [Event.readAttempt Tool.xclip])

/-- Driver `xsel_copy`: run xsel targeting the clipboard selection. -/
def xsel_copy (w : World) (text : String) : Except String Unit × List Event :=
  (run_with_stdin ("xsel") ["--clipboard", "--input"] text (w.child Tool.xsel),
   [Event.writeAttempt Tool.xsel])

/-- Function `verify_xsel_non_empty`: run the xsel read-back and report
whether stdout was non-empty, treating an invocation error as okay. -/
def verify_xsel_non_empty (w : World) : Bool × List Event :=
  ((match w.readOut Tool.xsel with
    | OutputResult.ok out => !out.stdout.isEmpty
    | OutputResult.err _ => true),
   [Event.readAttempt Tool.xsel])

/-- Driver `pbcopy` (macOS). -/
def pbcopy (w : World) (text : String) : Except String Unit × List Event :=
  (run_with_stdin ("pbcopy") [] text (w.child Tool.pbcopy),
   [Event.writeAttempt Tool.pbcopy])

/-- Driver `clip_exe` (Windows). -/
def clip_exe (w : World) (text : String) : Except String Unit × List Event :=
  (run_with_stdin ("clip.exe") [] text (w.child Tool.clipExe),
   [Event.writeAttempt Tool.clipExe])

/-- Driver `powershell_clip` (Windows). -/
def powershell_clip (w : World) (text : String) : Except String Unit × List Event :=
  (run_with_stdin ("powershell") ["-NoProfile", "-Command", "Set-Clipboard"] text
      (w.child Tool.powershell),
   [Event.writeAttempt Tool.powershell])

/-- Function `arboard_fallback`: open a clipboard handle through the
library and set its text; either stage's failure is surfaced as-is. -/
def arboard_fallback (w : World) (text : String) : Except String Unit :=
  match w.arboardNew with
  | Except.ok _ => w.arboardSet
  | Except.error e => Except.error e

instance {ε α : Type} [DecidableEq ε] [DecidableEq α] : DecidableEq (Except ε α) :=
  fun a b =>
    match a, b with
    | Except.error e, Except.error f =>
      decidable_of_iff (e = f) ⟨congrArg Except.error, Except.error.inj⟩
    | Except.error _, Except.ok _ => isFalse (fun h => Except.noConfusion h)
    | Except.ok _, Except.error _ => isFalse (fun h => Except.noConfusion h)
    | Except.ok x, Except.ok y =>
      decidable_of_iff (x = y) ⟨congrArg Except.ok, Except.ok.inj⟩

deriving instance DecidableEq for ChildState

deriving instance DecidableEq for SpawnResult

deriving instance DecidableEq for OutputResult

/-- Step 4 of `copy_to_clipboard_multi`: the library fallback, wrapping a
failure in the aggregate error message. -/
def cascade_lib (w : World) (text : String) : Except String Unit × List Event :=
  match arboard_fallback w text with
  | Except.error e =>
    (Except.error (("all clipboard backends failed; last error: ") ++ e),
     [Event.libAttempt])
  | Except.ok _ => (Except.ok (), [Event.libAttempt])

/-- Step 3 of `copy_to_clipboard_multi`: the `cfg(target_os)` OS-specific
fallbacks.  On macOS a present pbcopy's result is returned directly; on
Windows a present clip.exe else powershell is returned directly; otherwise
fall through to the library fallback. -/
def cascade_os (w : World) (text : String) : Except String Unit × List Event :=
  match w.os with
  | TargetOS.macos =>
    if cmd_exists w Tool.pbcopy then pbcopy w text
    else cascade_lib w text
  | TargetOS.windows =>
    if cmd_exists w Tool.clipExe then clip_exe w text
    else if cmd_exists w Tool.powershell then powershell_clip w text
    else cascade_lib w text
  | TargetOS.linux => cascade_lib w text

/-- Control-flow shape shared verbatim by the three verified CLI branches
of `copy_to_clipboard_multi`: when applicable and available, write, then
on write success verify; return success unless the write failed or
verification reported empty, in which case fall through to the rest of
the cascade (the early returns of the source are rendered as
continuations). -/
def attemptStep (guard : Bool) (wr : Except String Unit × List Event)
    (ver : Bool × List Event) (rest : Except String Unit × List Event) :
    Except String Unit × List Event :=
  if guard then
    match wr.1 with
    | Except.error _ => (rest.1, wr.2 ++ rest.2)
    | Except.ok _ =>
      if ver.1 then (Except.ok (), wr.2 ++ ver.2)
      else (rest.1, wr.2 ++ ver.2 ++ rest.2)
  else rest

/-- The xsel branch of step 2 of `copy_to_clipboard_multi`, continuing to
step 3 on skip, write failure, or empty verification. -/
def cascade_xsel (w : World) (text : String) : Except String Unit × List Event :=
  attemptStep ((is_x11 w || is_wayland w) && cmd_exists w Tool.xsel)
    (xsel_copy w text) (verify_xsel_non_empty w) (cascade_os w text)

/-- The xclip branch of step 2 of `copy_to_clipboard_multi`, continuing to
the xsel branch on skip, write failure, or empty verification. -/
def cascade_xclip (w : World) (text : String) : Except String Unit × List Event :=
  attemptStep ((is_x11 w || is_wayland w) && cmd_exists w Tool.xclip)
    (xclip_copy w text) (verify_xclip_non_empty w) (cascade_xsel w text)

/-- Function `copy_to_clipboard_multi` of `clipboard.rs`: step 1 is the
Wayland-native CLI branch, continuing to the xclip branch on skip, write
failure, or empty verification. -/
def copy_to_clipboard_multi (w : World) (text : String) :
    Except String Unit × List Event :=
  attemptStep (is_wayland w && cmd_exists w Tool.wlCopy)
    (wl_copy w text) (verify_wl_paste_non_empty w) (cascade_xclip w text)

/-- Observable effects of the tail of `main` (`main.rs`): the print of the
accumulated output, the optional copy attempt, and stderr reporting. -/
inductive MainEffect
  | stdoutPrint (s : String)
  | copyAttempt (s : String)
  | stderrLine (s : String)
deriving DecidableEq, Repr

/-- Tail of `main` in `main.rs`: print the accumulated output to stdout,
then, when the copy flag is set, attempt the clipboard copy of that same
output and report its outcome as a line on stderr. -/
def main_tail (w : World) (out : String) (copyFlag : Bool) : List MainEffect :=
  MainEffect.stdoutPrint out ::
    (if copyFlag then
      MainEffect.copyAttempt out ::
        (match (copy_to_clipboard_multi w out).1 with
         | Except.ok _ => [MainEffect.stderrLine (">> copied to clipboard")]
         | Except.error e =>
           [MainEffect.stderrLine ((">> failed to copy to clipboard: ") ++ e)])
     else [])

/-- Three-valued verification outcome, as the specification describes the
Verifier contract. -/
inductive VerifyOutcome
  | Confirmed
  | Empty
  | Inconclusive
deriving DecidableEq, Repr

/-- Specification-side verifier (the refinement target of the boolean
verifiers of the source), following the spec's words: Inconclusive when
the paired read tool is unavailable or its invocation errors, Empty only
when the read tool ran and produced zero bytes, Confirmed otherwise. -/
def verify_outcome_spec (toolPresent : Bool) (r : OutputResult) : VerifyOutcome :=
  if !toolPresent then VerifyOutcome.Inconclusive
  else
    match r with
    | OutputResult.err _ => VerifyOutcome.Inconclusive
    | OutputResult.ok out =>
      if out.stdout.isEmpty then VerifyOutcome.Empty else VerifyOutcome.Confirmed

/-- One CLI cascade step did not short-circuit: it was skipped
(inapplicable or tool absent), its write failed, or its write succeeded
but verification reported empty. -/
def step_skipped_or_failed (guard : Bool) (wr : Except String Unit × List Event)
    (ver : Bool × List Event) : Bool :=
  !guard ||
    (match wr.1 with
     | Except.error _ => true
     | Except.ok _ => !ver.1)

/-- The wl-copy candidate was skipped or failed. -/
def wl_skipped_or_failed (w : World) (text : String) : Bool :=
  step_skipped_or_failed (is_wayland w && cmd_exists w Tool.wlCopy)
    (wl_copy w text) (verify_wl_paste_non_empty w)

/-- The xclip candidate was skipped or failed. -/
def xclip_skipped_or_failed (w : World) (text : String) : Bool :=
  step_skipped_or_failed ((is_x11 w || is_wayland w) && cmd_exists w Tool.xclip)
    (xclip_copy w text) (verify_xclip_non_empty w)

/-- The xsel candidate was skipped or failed. -/
def xsel_skipped_or_failed (w : World) (text : String) : Bool :=
  step_skipped_or_failed ((is_x11 w || is_wayland w) && cmd_exists w Tool.xsel)
    (xsel_copy w text) (verify_xsel_non_empty w)

/-- No OS-specific fallback tool of the target platform is on the search
path (trivially true on targets other than macOS and Windows). -/
def native_tools_absent (w : World) : Bool :=
  match w.os with
  | TargetOS.linux => true
  | TargetOS.macos => !cmd_exists w Tool.pbcopy
  | TargetOS.windows => !cmd_exists w Tool.clipExe && !cmd_exists w Tool.powershell

/-- In a PATH-consistent world, spawning a binary that is not on the
search path fails, both for the piped write spawn and for output capture. -/
def spawnsFailWhenAbsent (w : World) : Prop :=
  ∀ t : Tool, w.onPath t = false →
    (match w.child t with
     | SpawnResult.err _ => True
     | SpawnResult.ok _ => False) ∧
    (match w.readOut t with
     | OutputResult.err _ => True
     | OutputResult.ok _ => False)

/-- Events the OS-specific fallback step may emit, in priority order. -/
def osOrder : List Event :=
  [Event.writeAttempt Tool.pbcopy, Event.writeAttempt Tool.clipExe,
   Event.writeAttempt Tool.powershell, Event.libAttempt]

/-- Events the cascade from the xsel step onwards may emit, in priority
order. -/
def xselOrder : List Event :=
  Event.writeAttempt Tool.xsel :: Event.readAttempt Tool.xsel :: osOrder

/-- Events the cascade from the xclip step onwards may emit, in priority
order. -/
def xclipOrder : List Event :=
  Event.writeAttempt Tool.xclip :: Event.readAttempt Tool.xclip :: xselOrder

/-- Events the whole cascade may emit, in priority order. -/
def masterOrder : List Event :=
  Event.writeAttempt Tool.wlCopy :: Event.readAttempt Tool.wlPaste :: xclipOrder

/-- A child that accepts its stdin and exits successfully. -/
def okChild : SpawnResult :=
  SpawnResult.ok
    { stdinSome := true
      writeAll := Except.ok ()
      wait := Except.ok { success := true, display := ("exit status: 0") } }

/-- A child that accepts its stdin and exits with status 1. -/
def failChild : SpawnResult :=
  SpawnResult.ok
    { stdinSome := true
      writeAll := Except.ok ()
      wait := Except.ok { success := false, display := ("exit status: 1") } }

/-- World with only the X11 indicator set, xclip present and functional
(write succeeds, read-back captures the payload bytes of "hello"), and
every other tool absent. -/
def xclipWorld : World :=
  { os := TargetOS.linux
    waylandDisplay := false
    waylandSocket := false
    display := true
    onPath := fun t => match t with | Tool.xclip => true | _ => false
    child := fun t => match t with
      | Tool.xclip => okChild
      | _ => SpawnResult.err ("No such file or directory (os error 2)")
    readOut := fun t => match t with
      | Tool.xclip => OutputResult.ok { statusSuccess := true, stdout := [104, 101, 108, 108, 111] }
      | _ => OutputResult.err ("No such file or directory (os error 2)")
    arboardNew := Except.ok ()
    arboardSet := Except.ok () }

/-- macOS world with no display indicators, pbcopy present but exiting
with status 1, every other tool absent, and a functional library
fallback. -/
def pbcopyFailWorld : World :=
  { os := TargetOS.macos
    waylandDisplay := false
    waylandSocket := false
    display := false
    onPath := fun t => match t with | Tool.pbcopy => true | _ => false
    child := fun t => match t with
      | Tool.pbcopy => failChild
      | _ => SpawnResult.err ("No such file or directory (os error 2)")
    readOut := fun _ => OutputResult.err ("No such file or directory (os error 2)")
    arboardNew := Except.ok ()
    arboardSet := Except.ok () }

/-- Like `pbcopyFailWorld`, but the library fallback would fail too. -/
def pbcopyFailLibFailWorld : World :=
  { os := TargetOS.macos
    waylandDisplay := false
    waylandSocket := false
    display := false
    onPath := fun t => match t with | Tool.pbcopy => true | _ => false
    child := fun t => match t with
      | Tool.pbcopy => failChild
      | _ => SpawnResult.err ("No such file or directory (os error 2)")
    readOut := fun _ => OutputResult.err ("No such file or directory (os error 2)")
    arboardNew := Except.error ("lib boom")
    arboardSet := Except.error ("lib boom") }

/-- Linux world with every tool present and functional writes, but every
read-back completing with zero bytes of output (the state of the world
after an empty payload was written), and a functional library fallback. -/
def allPresentEmptyReadWorld : World :=
  { os := TargetOS.linux
    waylandDisplay := true
    waylandSocket := false
    display := true
    onPath := fun _ => true
    child := fun _ => okChild
    readOut := fun _ => OutputResult.ok { statusSuccess := true, stdout := [] }
    arboardNew := Except.ok ()
    arboardSet := Except.ok () }

/-- Linux Wayland world where wl-copy is present and functional but
wl-paste (and everything else) is absent. -/
def wlNoPasteWorld : World :=
  { os := TargetOS.linux
    waylandDisplay := true
    waylandSocket := false
    display := false
    onPath := fun t => match t with | Tool.wlCopy => true | _ => false
    child := fun t => match t with
      | Tool.wlCopy => okChild
      | _ => SpawnResult.err ("No such file or directory (os error 2)")
    readOut := fun _ => OutputResult.err ("No such file or directory (os error 2)")
    arboardNew := Except.ok ()
    arboardSet := Except.ok () }

/-- Linux X11 world where every tool is present, writes succeed, and every
read-back completes with a non-success exit status yet one byte of
output. -/
def exitFailReadWorld : World :=
  { os := TargetOS.linux
    waylandDisplay := false
    waylandSocket := false
    display := true
    onPath := fun _ => true
    child := fun _ => okChild
    readOut := fun _ => OutputResult.ok { statusSuccess := false, stdout := [104] }
    arboardNew := Except.ok ()
    arboardSet := Except.ok () }

/-- Headless Linux world: no display indicators, no tools on the search
path, and a library fallback that fails to open a clipboard handle. -/
def noToolsLibFailWorld : World :=
  { os := TargetOS.linux
    waylandDisplay := false
    waylandSocket := false
    display := false
    onPath := fun _ => false
    child := fun _ => SpawnResult.err ("No such file or directory (os error 2)")
    readOut := fun _ => OutputResult.err ("No such file or directory (os error 2)")
    arboardNew := Except.error ("X11 server connection timed out")
    arboardSet := Except.error ("X11 server connection timed out") }

/-- Wayland Linux world where wl-copy is on the search path but spawning
it fails; everything else is absent and the library fallback works. -/
def wlSpawnFailWorld : World :=
  { os := TargetOS.linux
    waylandDisplay := true
    waylandSocket := false
    display := false
    onPath := fun t => match t with | Tool.wlCopy => true | _ => false
    child := fun _ => SpawnResult.err ("wl-copy spawn failed")
    readOut := fun _ => OutputResult.err ("No such file or directory (os error 2)")
    arboardNew := Except.ok ()
    arboardSet := Except.ok () }

lemma attemptStep_guard_false {g : Bool} (wr : Except String Unit × List Event)
    (ver : Bool × List Event) (rest : Except String Unit × List Event)
    (h : g = false) : attemptStep g wr ver rest = rest := by
  simp [attemptStep, h]

lemma attemptStep_write_err {g : Bool} {wr : Except String Unit × List Event}
    (ver : Bool × List Event) (rest : Except String Unit × List Event)
    (hg : g = true) {e : String} (he : wr.1 = Except.error e) :
    attemptStep g wr ver rest = (rest.1, wr.2 ++ rest.2) := by
  simp [attemptStep, hg, he]

lemma attemptStep_ok_verify_true {g : Bool} {wr : Except String Unit × List Event}
    {ver : Bool × List Event} (rest : Except String Unit × List Event)
    (hg : g = true) (ho : wr.1 = Except.ok ()) (hv : ver.1 = true) :
    attemptStep g wr ver rest = (Except.ok (), wr.2 ++ ver.2) := by
  simp [attemptStep, hg, ho, hv]

lemma attemptStep_ok_verify_false {g : Bool} {wr : Except String Unit × List Event}
    {ver : Bool × List Event} (rest : Except String Unit × List Event)
    (hg : g = true) (ho : wr.1 = Except.ok ()) (hv : ver.1 = false) :
    attemptStep g wr ver rest = (rest.1, wr.2 ++ ver.2 ++ rest.2) := by
  simp [attemptStep, hg, ho, hv]

lemma attemptStep_not_succ {g : Bool} {wr : Except String Unit × List Event}
    {ver : Bool × List Event} (rest : Except String Unit × List Event)
    (h : step_skipped_or_failed g wr ver = true) :
    (attemptStep g wr ver rest).1 = rest.1 ∧
      ∃ pre, (attemptStep g wr ver rest).2 = pre ++ rest.2 := by
  cases hg : g with
  | false =>
    subst hg
    rw [attemptStep_guard_false wr ver rest rfl]
    exact ⟨rfl, [], rfl⟩
  | true =>
    subst hg
    unfold step_skipped_or_failed at h
    rw [Bool.not_true] at h
    rw [Bool.false_or] at h
    cases hw : wr.1 with
    | error e =>
      rw [attemptStep_write_err ver rest rfl hw]
      exact ⟨rfl, wr.2, rfl⟩
    | ok u =>
      cases u
      rw [hw] at h
      simp only at h
      have hv : ver.1 = false := by
        cases hv2 : ver.1 with
        | false => rfl
        | true => rw [hv2] at h; simp at h
      rw [attemptStep_ok_verify_false rest rfl hw hv]
      exact ⟨rfl, wr.2 ++ ver.2, by simp⟩

lemma attemptStep_snd_sublist {g : Bool} {wr : Except String Unit × List Event}
    {ver : Bool × List Event} {rest : Except String Unit × List Event}
    {a b : Event} {order : List Event}
    (hw : wr.2 = [a]) (hv : ver.2.Sublist [b]) (hr : rest.2.Sublist order) :
    (attemptStep g wr ver rest).2.Sublist (a :: b :: order) := by
  cases hg : g with
  | false =>
    subst hg
    rw [attemptStep_guard_false wr ver rest rfl]
    exact (hr.cons b).cons a
  | true =>
    subst hg
    cases hw2 : wr.1 with
    | error e =>
      rw [attemptStep_write_err ver rest rfl hw2]
      simp only [hw, List.cons_append, List.nil_append]
      exact (hr.cons b).cons₂ a
    | ok u =>
      cases u
      cases hv2 : ver.1 with
      | true =>
        rw [attemptStep_ok_verify_true rest rfl hw2 hv2]
        simp only [hw, List.cons_append, List.nil_append]
        exact (hv.trans ((List.nil_sublist order).cons₂ b)).cons₂ a
      | false =>
        rw [attemptStep_ok_verify_false rest rfl hw2 hv2]
        simp only [hw, List.cons_append, List.nil_append, List.append_assoc]
        exact (hv.append hr).cons₂ a

lemma attemptStep_mem_of_guard {g : Bool} {wr : Except String Unit × List Event}
    (ver : Bool × List Event) (rest : Except String Unit × List Event)
    {a : Event} (hg : g = true) (hw : wr.2 = [a]) :
    a ∈ (attemptStep g wr ver rest).2 := by
  subst hg
  cases hw2 : wr.1 with
  | error e =>
    rw [attemptStep_write_err ver rest rfl hw2]
    simp [hw]
  | ok u =>
    cases u
    cases hv2 : ver.1 with
    | true =>
      rw [attemptStep_ok_verify_true rest rfl hw2 hv2]
      simp [hw]
    | false =>
      rw [attemptStep_ok_verify_false rest rfl hw2 hv2]
      simp [hw]

lemma verify_wl_snd_sublist (w : World) :
    (verify_wl_paste_non_empty w).2.Sublist [Event.readAttempt Tool.wlPaste] := by
  cases h : cmd_exists w Tool.wlPaste <;> simp [verify_wl_paste_non_empty, h]

lemma cascade_lib_snd (w : World) (text : String) :
    (cascade_lib w text).2 = [Event.libAttempt] := by
  cases h : arboard_fallback w text <;> simp [cascade_lib, h]

lemma cascade_lib_fst_error (w : World) (text : String) {e : String}
    (h : arboard_fallback w text = Except.error e) :
    (cascade_lib w text).1 =
      Except.error (("all clipboard backends failed; last error: ") ++ e) := by
  simp [cascade_lib, h]

lemma cascade_lib_fst_ok (w : World) (text : String)
    (h : arboard_fallback w text = Except.ok ()) :
    (cascade_lib w text).1 = Except.ok () := by
  simp [cascade_lib, h]

lemma cascade_os_eq_lib (w : World) (text : String)
    (h : native_tools_absent w = true) :
    cascade_os w text = cascade_lib w text := by
  unfold cascade_os
  unfold native_tools_absent at h
  cases ho : w.os with
  | linux => rfl
  | macos =>
    rw [ho] at h
    simp only [Bool.not_eq_true'] at h
    simp [h]
  | windows =>
    rw [ho] at h
    simp only [Bool.and_eq_true, Bool.not_eq_true'] at h
    simp [h.1, h.2]

lemma cascade_os_snd_sublist (w : World) (text : String) :
    (cascade_os w text).2.Sublist osOrder := by
  unfold cascade_os
  cases ho : w.os with
  | linux =>
    rw [cascade_lib_snd]
    decide
  | macos =>
    cases hp : cmd_exists w Tool.pbcopy with
    | true => simp [hp, pbcopy, osOrder]
    | false =>
      simp only [hp, if_false, Bool.false_eq_true]
      rw [cascade_lib_snd]
      decide
  | windows =>
    cases hc : cmd_exists w Tool.clipExe with
    | true => simp [hc, clip_exe, osOrder]
    | false =>
      cases hps : cmd_exists w Tool.powershell with
      | true => simp [hc, hps, powershell_clip, osOrder]
      | false =>
        simp only [hc, hps, if_false, Bool.false_eq_true]
        rw [cascade_lib_snd]
        decide

lemma cascade_xsel_snd_sublist (w : World) (text : String) :
    (cascade_xsel w text).2.Sublist xselOrder :=
  attemptStep_snd_sublist rfl (List.Sublist.refl _) (cascade_os_snd_sublist w text)

lemma cascade_xclip_snd_sublist (w : World) (text : String) :
    (cascade_xclip w text).2.Sublist xclipOrder :=
  attemptStep_snd_sublist rfl (List.Sublist.refl _) (cascade_xsel_snd_sublist w text)

lemma copy_snd_sublist (w : World) (text : String) :
    (copy_to_clipboard_multi w text).2.Sublist masterOrder :=
  attemptStep_snd_sublist rfl (verify_wl_snd_sublist w) (cascade_xclip_snd_sublist w text)

lemma copy_not_succ_wl (w : World) (text : String)
    (h : wl_skipped_or_failed w text = true) :
    (copy_to_clipboard_multi w text).1 = (cascade_xclip w text).1 ∧
      ∃ pre, (copy_to_clipboard_multi w text).2 = pre ++ (cascade_xclip w text).2 :=
  attemptStep_not_succ (cascade_xclip w text) h

lemma cascade_xclip_not_succ (w : World) (text : String)
    (h : xclip_skipped_or_failed w text = true) :
    (cascade_xclip w text).1 = (cascade_xsel w text).1 ∧
      ∃ pre, (cascade_xclip w text).2 = pre ++ (cascade_xsel w text).2 :=
  attemptStep_not_succ (cascade_xsel w text) h

lemma cascade_xsel_not_succ (w : World) (text : String)
    (h : xsel_skipped_or_failed w text = true) :
    (cascade_xsel w text).1 = (cascade_os w text).1 ∧
      ∃ pre, (cascade_xsel w text).2 = pre ++ (cascade_os w text).2 :=
  attemptStep_not_succ (cascade_os w text) h

lemma copy_reaches_os (w : World) (text : String)
    (h1 : wl_skipped_or_failed w text = true)
    (h2 : xclip_skipped_or_failed w text = true)
    (h3 : xsel_skipped_or_failed w text = true) :
    (copy_to_clipboard_multi w text).1 = (cascade_os w text).1 ∧
      ∃ pre, (copy_to_clipboard_multi w text).2 = pre ++ (cascade_os w text).2 := by
  obtain ⟨f1, p1, hp1⟩ := copy_not_succ_wl w text h1
  obtain ⟨f2, p2, hp2⟩ := cascade_xclip_not_succ w text h2
  obtain ⟨f3, p3, hp3⟩ := cascade_xsel_not_succ w text h3
  refine ⟨by rw [f1, f2, f3], p1 ++ (p2 ++ p3), ?_⟩
  rw [hp1, hp2, hp3]
  simp [List.append_assoc]

lemma copy_reaches_lib (w : World) (text : String)
    (h1 : wl_skipped_or_failed w text = true)
    (h2 : xclip_skipped_or_failed w text = true)
    (h3 : xsel_skipped_or_failed w text = true)
    (h4 : native_tools_absent w = true) :
    (copy_to_clipboard_multi w text).1 = (cascade_lib w text).1 ∧
      Event.libAttempt ∈ (copy_to_clipboard_multi w text).2 := by
  obtain ⟨hf, pre, hp⟩ := copy_reaches_os w text h1 h2 h3
  rw [cascade_os_eq_lib w text h4] at hf hp
  refine ⟨hf, ?_⟩
  rw [hp, cascade_lib_snd]
  simp

/-- C1: if the first applicable and available backend's write succeeds and
its verification succeeds, the orchestrator returns success immediately
without invoking any later backend or the library fallback.  Stated for
each possible first verified candidate of the cascade: the conclusion
fixes the whole event trace, so no xsel, OS-native or library invocation
occurs.  In particular (witness), with only the X11 indicator set, xclip
present and functional and xsel absent, transmitting "hello" performs the
xclip write, then the xclip read-back, and returns success. -/
theorem C1_first_success_short_circuits (w : World) (text : String) :
    ((is_wayland w && cmd_exists w Tool.wlCopy) = true →
      (wl_copy w text).1 = Except.ok () →
      (verify_wl_paste_non_empty w).1 = true →
      copy_to_clipboard_multi w text =
        (Except.ok (), Event.writeAttempt Tool.wlCopy :: (verify_wl_paste_non_empty w).2)) ∧
    ((is_wayland w && cmd_exists w Tool.wlCopy) = false →
      ((is_x11 w || is_wayland w) && cmd_exists w Tool.xclip) = true →
      (xclip_copy w text).1 = Except.ok () →
      (verify_xclip_non_empty w).1 = true →
      copy_to_clipboard_multi w text =
        (Except.ok (), [Event.writeAttempt Tool.xclip, Event.readAttempt Tool.xclip])) ∧
    ((is_wayland w && cmd_exists w Tool.wlCopy) = false →
      ((is_x11 w || is_wayland w) && cmd_exists w Tool.xclip) = false →
      ((is_x11 w || is_wayland w) && cmd_exists w Tool.xsel) = true →
      (xsel_copy w text).1 = Except.ok () →
      (verify_xsel_non_empty w).1 = true →
      copy_to_clipboard_multi w text =
        (Except.ok (), [Event.writeAttempt Tool.xsel, Event.readAttempt Tool.xsel])) := by
  refine ⟨?_, ?_, ?_⟩
  · intro hg ho hv
    have h := attemptStep_ok_verify_true (cascade_xclip w text) hg ho hv
    have h2 : copy_to_clipboard_multi w text =
        (Except.ok (), (wl_copy w text).2 ++ (verify_wl_paste_non_empty w).2) := h
    rw [h2]
    simp [wl_copy]
  · intro hg hgx ho hv
    have h0 : copy_to_clipboard_multi w text = cascade_xclip w text :=
      attemptStep_guard_false _ _ _ hg
    have h := attemptStep_ok_verify_true (cascade_xsel w text) hgx ho hv
    have h2 : cascade_xclip w text =
        (Except.ok (), (xclip_copy w text).2 ++ (verify_xclip_non_empty w).2) := h
    rw [h0, h2]
    simp [xclip_copy, verify_xclip_non_empty]
  · intro hg hgx hgs ho hv
    have h0 : copy_to_clipboard_multi w text = cascade_xclip w text :=
      attemptStep_guard_false _ _ _ hg
    have h1 : cascade_xclip w text = cascade_xsel w text :=
      attemptStep_guard_false _ _ _ hgx
    have h := attemptStep_ok_verify_true (cascade_os w text) hgs ho hv
    have h2 : cascade_xsel w text =
        (Except.ok (), (xsel_copy w text).2 ++ (verify_xsel_non_empty w).2) := h
    rw [h0, h1, h2]
    simp [xsel_copy, verify_xsel_non_empty]

/-- Witness for C1: the claim's own scenario. -/
theorem C1_witness :
    copy_to_clipboard_multi xclipWorld "hello" =
      (Except.ok (), [Event.writeAttempt Tool.xclip, Event.readAttempt Tool.xclip]) :=
  (C1_first_success_short_circuits xclipWorld "hello").2.1
    (by decide) (by decide) (by decide) (by decide)

/-- C2 (amended): for the three verified CLI backends (wl-copy, xclip,
xsel), a write failure never aborts the cascade — the result and the
remaining trace are exactly those of the continuation with the next
candidate — and on targets whose platform-native tools are absent the
continuation always reaches the library fallback.  Amendment forced by the
counterexample: on macOS/Windows a present platform-native tool's write
failure is returned directly, aborting the cascade before the library
fallback. -/
theorem C2_write_failure_advances_cascade (w : World) (text : String) :
    (∀ e, (is_wayland w && cmd_exists w Tool.wlCopy) = true →
      (wl_copy w text).1 = Except.error e →
      copy_to_clipboard_multi w text =
        ((cascade_xclip w text).1, Event.writeAttempt Tool.wlCopy :: (cascade_xclip w text).2)) ∧
    (∀ e, ((is_x11 w || is_wayland w) && cmd_exists w Tool.xclip) = true →
      (xclip_copy w text).1 = Except.error e →
      cascade_xclip w text =
        ((cascade_xsel w text).1, Event.writeAttempt Tool.xclip :: (cascade_xsel w text).2)) ∧
    (∀ e, ((is_x11 w || is_wayland w) && cmd_exists w Tool.xsel) = true →
      (xsel_copy w text).1 = Except.error e →
      cascade_xsel w text =
        ((cascade_os w text).1, Event.writeAttempt Tool.xsel :: (cascade_os w text).2)) ∧
    (native_tools_absent w = true → Event.libAttempt ∈ (cascade_os w text).2) := by
  refine ⟨?_, ?_, ?_, ?_⟩
  · intro e hg he
    have h : copy_to_clipboard_multi w text =
        ((cascade_xclip w text).1, (wl_copy w text).2 ++ (cascade_xclip w text).2) :=
      attemptStep_write_err _ _ hg he
    rw [h]
    simp [wl_copy]
  · intro e hg he
    have h : cascade_xclip w text =
        ((cascade_xsel w text).1, (xclip_copy w text).2 ++ (cascade_xsel w text).2) :=
      attemptStep_write_err _ _ hg he
    rw [h]
    simp [xclip_copy]
  · intro e hg he
    have h : cascade_xsel w text =
        ((cascade_os w text).1, (xsel_copy w text).2 ++ (cascade_os w text).2) :=
      attemptStep_write_err _ _ hg he
    rw [h]
    simp [xsel_copy]
  · intro h
    rw [cascade_os_eq_lib w text h, cascade_lib_snd]
    simp

/-- Witness for C2: in a Wayland world where wl-copy is present but its
spawn fails, the cascade continues exactly with the xclip branch. -/
theorem C2_witness :
    copy_to_clipboard_multi wlSpawnFailWorld "x" =
      ((cascade_xclip wlSpawnFailWorld "x").1,
        Event.writeAttempt Tool.wlCopy :: (cascade_xclip wlSpawnFailWorld "x").2) :=
  (C2_write_failure_advances_cascade wlSpawnFailWorld "x").1
    ("wl-copy spawn failed") (by decide) (by decide)

/-- Counterexample to C2 as stated: on macOS with only pbcopy present, a
pbcopy write failure (exit status 1) makes the orchestrator return that
error immediately; the library fallback is never invoked, so a single
backend write failure did abort the cascade. -/
theorem C2_counterexample :
    copy_to_clipboard_multi pbcopyFailWorld "x" =
      (Except.error (("pbcopy exited with status exit status: 1")),
        [Event.writeAttempt Tool.pbcopy]) ∧
    Event.libAttempt ∉ (copy_to_clipboard_multi pbcopyFailWorld "x").2 := by
  exact ⟨by decide, by decide⟩

/-- C3 (amended): if every verified CLI candidate is skipped or fails and
the target's platform-native tools are absent, the orchestrator invokes
the library fallback: if that fails with error e, the result is an error
whose text is the aggregate message carrying e (the most recent recorded
failure); if it succeeds, the result is success.  Amendment forced by the
counterexample: on macOS/Windows a present platform-native tool returns
its own result directly, so the premise additionally requires the native
tools to be absent. -/
theorem C3_exhaustion_returns_last_error (w : World) (text : String)
    (h1 : wl_skipped_or_failed w text = true)
    (h2 : xclip_skipped_or_failed w text = true)
    (h3 : xsel_skipped_or_failed w text = true)
    (h4 : native_tools_absent w = true) :
    (∀ e, arboard_fallback w text = Except.error e →
      (copy_to_clipboard_multi w text).1 =
        Except.error (("all clipboard backends failed; last error: ") ++ e)) ∧
    (arboard_fallback w text = Except.ok () →
      (copy_to_clipboard_multi w text).1 = Except.ok ()) ∧
    Event.libAttempt ∈ (copy_to_clipboard_multi w text).2 := by
  obtain ⟨hf, hmem⟩ := copy_reaches_lib w text h1 h2 h3 h4
  refine ⟨?_, ?_, hmem⟩
  · intro e he
    rw [hf, cascade_lib_fst_error w text he]
  · intro he
    rw [hf, cascade_lib_fst_ok w text he]

/-- Witness for C3: a headless world with no tools and a failing library
fallback returns the aggregate error carrying the library's error text,
after attempting the library. -/
theorem C3_witness :
    (copy_to_clipboard_multi noToolsLibFailWorld "x").1 =
      Except.error (("all clipboard backends failed; last error: ") ++
        ("X11 server connection timed out")) ∧
    Event.libAttempt ∈ (copy_to_clipboard_multi noToolsLibFailWorld "x").2 := by
  have h := C3_exhaustion_returns_last_error noToolsLibFailWorld "x"
    (by decide) (by decide) (by decide) (by decide)
  exact ⟨h.1 ("X11 server connection timed out") (by decide), h.2.2⟩

/-- Counterexample to C3 as stated: on macOS every verified CLI candidate
is skipped, pbcopy (present) fails, and the library fallback would fail
with "lib boom"; yet the orchestrator returns the pbcopy error, not an
error carrying the library fallback's error, and never invokes the
library fallback. -/
theorem C3_counterexample :
    wl_skipped_or_failed pbcopyFailLibFailWorld "x" = true ∧
    xclip_skipped_or_failed pbcopyFailLibFailWorld "x" = true ∧
    xsel_skipped_or_failed pbcopyFailLibFailWorld "x" = true ∧
    arboard_fallback pbcopyFailLibFailWorld "x" = Except.error ("lib boom") ∧
    (copy_to_clipboard_multi pbcopyFailLibFailWorld "x").1 =
      Except.error (("pbcopy exited with status exit status: 1")) ∧
    (copy_to_clipboard_multi pbcopyFailLibFailWorld "x").1 ≠
      Except.error (("all clipboard backends failed; last error: ") ++ ("lib boom")) ∧
    Event.libAttempt ∉ (copy_to_clipboard_multi pbcopyFailLibFailWorld "x").2 := by
  decide

lemma verify_wl_iff (w : World) :
    ((verify_wl_paste_non_empty w).1 = true ↔
      verify_outcome_spec (cmd_exists w Tool.wlPaste) (w.readOut Tool.wlPaste) ≠
        VerifyOutcome.Empty) := by
  unfold verify_wl_paste_non_empty verify_outcome_spec
  cases hp : cmd_exists w Tool.wlPaste with
  | false => simp
  | true =>
    cases hr : w.readOut Tool.wlPaste with
    | err e => simp
    | ok o => cases ho : o.stdout.isEmpty <;> simp [ho]

lemma verify_xclip_iff (w : World) (hpc : spawnsFailWhenAbsent w) :
    ((verify_xclip_non_empty w).1 = true ↔
      verify_outcome_spec (cmd_exists w Tool.xclip) (w.readOut Tool.xclip) ≠
        VerifyOutcome.Empty) := by
  unfold verify_xclip_non_empty verify_outcome_spec
  cases hp : cmd_exists w Tool.xclip with
  | false =>
    have h2 := (hpc Tool.xclip hp).2
    cases hr : w.readOut Tool.xclip with
    | err e => simp
    | ok o =>
      rw [hr] at h2
      exact h2.elim
  | true =>
    cases hr : w.readOut Tool.xclip with
    | err e => simp
    | ok o => cases ho : o.stdout.isEmpty <;> simp [ho]

lemma verify_xsel_iff (w : World) (hpc : spawnsFailWhenAbsent w) :
    ((verify_xsel_non_empty w).1 = true ↔
      verify_outcome_spec (cmd_exists w Tool.xsel) (w.readOut Tool.xsel) ≠
        VerifyOutcome.Empty) := by
  unfold verify_xsel_non_empty verify_outcome_spec
  cases hp : cmd_exists w Tool.xsel with
  | false =>
    have h2 := (hpc Tool.xsel hp).2
    cases hr : w.readOut Tool.xsel with
    | err e => simp
    | ok o =>
      rw [hr] at h2
      exact h2.elim
  | true =>
    cases hr : w.readOut Tool.xsel with
    | err e => simp
    | ok o => cases ho : o.stdout.isEmpty <;> simp [ho]

lemma verify_outcome_spec_empty_iff (p : Bool) (r : OutputResult) :
    verify_outcome_spec p r = VerifyOutcome.Empty ↔
      p = true ∧ ∃ o, r = OutputResult.ok o ∧ o.stdout = [] := by
  unfold verify_outcome_spec
  cases p with
  | false => simp
  | true =>
    cases r with
    | err e => simp
    | ok o =>
      cases ho : o.stdout.isEmpty with
      | true =>
        have hnil : o.stdout = [] := List.isEmpty_iff.mp ho
        simp [hnil]
      | false =>
        have hne : o.stdout ≠ [] := by
          intro hnil
          rw [hnil] at ho
          simp at ho
        simp [ho, hne]

/-- C4: the boolean verifiers of the source refine the three-valued
verification of the spec.  In any PATH-consistent world (spawning an
absent binary fails), each verifier returns true exactly when the
three-valued outcome is not Empty; the outcome is Empty exactly when the
read tool is present and its invocation completed with zero bytes of
stdout (it is Inconclusive when the tool is absent or the invocation
errors, Confirmed otherwise); and after a successful write the
orchestrator returns overall success for a non-Empty outcome (treating
Inconclusive like Confirmed) while an Empty outcome makes it continue the
cascade with the next candidate instead of reporting success. -/
theorem C4_verification_three_valued (w : World) (text : String)
    (hpc : spawnsFailWhenAbsent w) :
    ((verify_wl_paste_non_empty w).1 = true ↔
      verify_outcome_spec (cmd_exists w Tool.wlPaste) (w.readOut Tool.wlPaste) ≠
        VerifyOutcome.Empty) ∧
    ((verify_xclip_non_empty w).1 = true ↔
      verify_outcome_spec (cmd_exists w Tool.xclip) (w.readOut Tool.xclip) ≠
        VerifyOutcome.Empty) ∧
    ((verify_xsel_non_empty w).1 = true ↔
      verify_outcome_spec (cmd_exists w Tool.xsel) (w.readOut Tool.xsel) ≠
        VerifyOutcome.Empty) ∧
    (∀ (p : Bool) (r : OutputResult),
      verify_outcome_spec p r = VerifyOutcome.Empty ↔
        p = true ∧ ∃ o, r = OutputResult.ok o ∧ o.stdout = []) ∧
    ((is_wayland w && cmd_exists w Tool.wlCopy) = true →
      (wl_copy w text).1 = Except.ok () →
      (verify_outcome_spec (cmd_exists w Tool.wlPaste) (w.readOut Tool.wlPaste) ≠
          VerifyOutcome.Empty →
        (copy_to_clipboard_multi w text).1 = Except.ok ()) ∧
      (verify_outcome_spec (cmd_exists w Tool.wlPaste) (w.readOut Tool.wlPaste) =
          VerifyOutcome.Empty →
        copy_to_clipboard_multi w text =
          ((cascade_xclip w text).1,
            Event.writeAttempt Tool.wlCopy ::
              ((verify_wl_paste_non_empty w).2 ++ (cascade_xclip w text).2)))) ∧
    (((is_x11 w || is_wayland w) && cmd_exists w Tool.xclip) = true →
      (xclip_copy w text).1 = Except.ok () →
      (verify_outcome_spec (cmd_exists w Tool.xclip) (w.readOut Tool.xclip) ≠
          VerifyOutcome.Empty →
        (cascade_xclip w text).1 = Except.ok ()) ∧
      (verify_outcome_spec (cmd_exists w Tool.xclip) (w.readOut Tool.xclip) =
          VerifyOutcome.Empty →
        cascade_xclip w text =
          ((cascade_xsel w text).1,
            Event.writeAttempt Tool.xclip ::
              ((verify_xclip_non_empty w).2 ++ (cascade_xsel w text).2)))) := by
  have hwl := verify_wl_iff w
  have hxc := verify_xclip_iff w hpc
  have hxs := verify_xsel_iff w hpc
  refine ⟨hwl, hxc, hxs, verify_outcome_spec_empty_iff, ?_, ?_⟩
  · intro hg ho
    constructor
    · intro hne
      have hv : (verify_wl_paste_non_empty w).1 = true := hwl.mpr hne
      have h : copy_to_clipboard_multi w text =
          (Except.ok (), (wl_copy w text).2 ++ (verify_wl_paste_non_empty w).2) :=
        attemptStep_ok_verify_true _ hg ho hv
      rw [h]
    · intro hemp
      have hv : (verify_wl_paste_non_empty w).1 = false := by
        cases hb : (verify_wl_paste_non_empty w).1 with
        | false => rfl
        | true => exact absurd hemp (hwl.mp hb)
      have h : copy_to_clipboard_multi w text =
          ((cascade_xclip w text).1,
            (wl_copy w text).2 ++ (verify_wl_paste_non_empty w).2 ++ (cascade_xclip w text).2) :=
        attemptStep_ok_verify_false _ hg ho hv
      rw [h]
      simp [wl_copy]
  · intro hg ho
    constructor
    · intro hne
      have hv : (verify_xclip_non_empty w).1 = true := hxc.mpr hne
      have h : cascade_xclip w text =
          (Except.ok (), (xclip_copy w text).2 ++ (verify_xclip_non_empty w).2) :=
        attemptStep_ok_verify_true _ hg ho hv
      rw [h]
    · intro hemp
      have hv : (verify_xclip_non_empty w).1 = false := by
        cases hb : (verify_xclip_non_empty w).1 with
        | false => rfl
        | true => exact absurd hemp (hxc.mp hb)
      have h : cascade_xclip w text =
          ((cascade_xsel w text).1,
            (xclip_copy w text).2 ++ (verify_xclip_non_empty w).2 ++ (cascade_xsel w text).2) :=
        attemptStep_ok_verify_false _ hg ho hv
      rw [h]
      simp [xclip_copy]

/-- Witness for C4: every tool present, wl-copy write succeeds, the
wl-paste read-back completes with zero bytes (outcome Empty), and the
orchestrator continues with the xclip branch instead of reporting
success. -/
theorem C4_witness :
    copy_to_clipboard_multi allPresentEmptyReadWorld "x" =
      ((cascade_xclip allPresentEmptyReadWorld "x").1,
        Event.writeAttempt Tool.wlCopy ::
          ((verify_wl_paste_non_empty allPresentEmptyReadWorld).2 ++
            (cascade_xclip allPresentEmptyReadWorld "x").2)) :=
  ((C4_verification_three_valued allPresentEmptyReadWorld "x"
      (by intro t h; simp [allPresentEmptyReadWorld] at h)).2.2.2.2.1
    (by decide) (by decide)).2 (by decide)

/-- C5 (amended): the cascade attempts backends one at a time in the fixed
priority order — every event trace is a sublist of the priority sequence
wl-copy write, wl-paste read, xclip write, xclip read, xsel write, xsel
read, pbcopy, clip.exe, powershell, library — and an earlier verified CLI
candidate that was skipped or failed never disables a later candidate:
the cascade continues exactly with the next step's result.  Amendment
forced by the counterexample: on macOS/Windows a present platform-native
tool ends the cascade with its own result, so its failure forgoes the
library fallback. -/
theorem C5_priority_order (w : World) (text : String) :
    (copy_to_clipboard_multi w text).2.Sublist masterOrder ∧
    (wl_skipped_or_failed w text = true →
      (copy_to_clipboard_multi w text).1 = (cascade_xclip w text).1 ∧
        ∃ pre, (copy_to_clipboard_multi w text).2 = pre ++ (cascade_xclip w text).2) ∧
    (xclip_skipped_or_failed w text = true →
      (cascade_xclip w text).1 = (cascade_xsel w text).1 ∧
        ∃ pre, (cascade_xclip w text).2 = pre ++ (cascade_xsel w text).2) ∧
    (xsel_skipped_or_failed w text = true →
      (cascade_xsel w text).1 = (cascade_os w text).1 ∧
        ∃ pre, (cascade_xsel w text).2 = pre ++ (cascade_os w text).2) :=
  ⟨copy_snd_sublist w text, copy_not_succ_wl w text,
    cascade_xclip_not_succ w text, cascade_xsel_not_succ w text⟩

/-- Witness for C5: with wl-copy skipped-or-failed (its verification read
back zero bytes), the cascade continues exactly with the xclip branch. -/
theorem C5_witness :
    (copy_to_clipboard_multi allPresentEmptyReadWorld "x").1 =
        (cascade_xclip allPresentEmptyReadWorld "x").1 ∧
      ∃ pre, (copy_to_clipboard_multi allPresentEmptyReadWorld "x").2 =
        pre ++ (cascade_xclip allPresentEmptyReadWorld "x").2 :=
  (C5_priority_order allPresentEmptyReadWorld "x").2.1 (by decide)

/-- Counterexample to C5 as stated: on macOS a failed pbcopy disables the
later library candidate — the library fallback would succeed, yet it is
never attempted and the overall result is the pbcopy failure. -/
theorem C5_counterexample :
    (copy_to_clipboard_multi pbcopyFailWorld "x").1 =
      Except.error (("pbcopy exited with status exit status: 1")) ∧
    arboard_fallback pbcopyFailWorld "x" = Except.ok () ∧
    Event.libAttempt ∉ (copy_to_clipboard_multi pbcopyFailWorld "x").2 := by
  decide

/-- C6: environment classification reads exactly the two Wayland
indicators (WAYLAND_DISPLAY, WAYLAND_SOCKET) and the one X11 indicator
(DISPLAY): is_wayland is their disjunction and depends on nothing else,
is_x11 is the X11 indicator alone; the wl-copy branch runs exactly when a
Wayland indicator is set and the tool is present; each X11 backend's
branch runs exactly when (X11 indicator OR Wayland indicator) and the
tool is present; and under XWayland (both indicator kinds set) both the
Wayland backend and the X11 backend are attempted (once the Wayland one
does not short-circuit). -/
theorem C6_environment_classification (w : World) (text : String) :
    (is_wayland w = (w.waylandDisplay || w.waylandSocket)) ∧
    (is_x11 w = w.display) ∧
    (∀ w2 : World, w2.waylandDisplay = w.waylandDisplay →
      w2.waylandSocket = w.waylandSocket → is_wayland w2 = is_wayland w) ∧
    (∀ w2 : World, w2.display = w.display → is_x11 w2 = is_x11 w) ∧
    (Event.writeAttempt Tool.wlCopy ∈ (copy_to_clipboard_multi w text).2 ↔
      (is_wayland w && cmd_exists w Tool.wlCopy) = true) ∧
    (Event.writeAttempt Tool.xclip ∈ (cascade_xclip w text).2 ↔
      ((is_x11 w || is_wayland w) && cmd_exists w Tool.xclip) = true) ∧
    (Event.writeAttempt Tool.xsel ∈ (cascade_xsel w text).2 ↔
      ((is_x11 w || is_wayland w) && cmd_exists w Tool.xsel) = true) ∧
    (w.waylandDisplay = true → w.display = true →
      cmd_exists w Tool.wlCopy = true → cmd_exists w Tool.xclip = true →
      wl_skipped_or_failed w text = true →
      Event.writeAttempt Tool.wlCopy ∈ (copy_to_clipboard_multi w text).2 ∧
        Event.writeAttempt Tool.xclip ∈ (copy_to_clipboard_multi w text).2) := by
  refine ⟨rfl, rfl, ?_, ?_, ?_, ?_, ?_, ?_⟩
  · intro w2 h1 h2
    unfold is_wayland
    rw [h1, h2]
  · intro w2 h1
    unfold is_x11
    rw [h1]
  · constructor
    · intro hmem
      cases hg : (is_wayland w && cmd_exists w Tool.wlCopy) with
      | true => rfl
      | false =>
        have hcopy : copy_to_clipboard_multi w text = cascade_xclip w text :=
          attemptStep_guard_false _ _ _ hg
        rw [hcopy] at hmem
        exact absurd ((cascade_xclip_snd_sublist w text).subset hmem) (by decide)
    · intro hg
      exact attemptStep_mem_of_guard (verify_wl_paste_non_empty w)
        (cascade_xclip w text) hg rfl
  · constructor
    · intro hmem
      cases hg : ((is_x11 w || is_wayland w) && cmd_exists w Tool.xclip) with
      | true => rfl
      | false =>
        have hstep : cascade_xclip w text = cascade_xsel w text :=
          attemptStep_guard_false _ _ _ hg
        rw [hstep] at hmem
        exact absurd ((cascade_xsel_snd_sublist w text).subset hmem) (by decide)
    · intro hg
      exact attemptStep_mem_of_guard (verify_xclip_non_empty w)
        (cascade_xsel w text) hg rfl
  · constructor
    · intro hmem
      cases hg : ((is_x11 w || is_wayland w) && cmd_exists w Tool.xsel) with
      | true => rfl
      | false =>
        have hstep : cascade_xsel w text = cascade_os w text :=
          attemptStep_guard_false _ _ _ hg
        rw [hstep] at hmem
        exact absurd ((cascade_os_snd_sublist w text).subset hmem) (by decide)
    · intro hg
      exact attemptStep_mem_of_guard (verify_xsel_non_empty w)
        (cascade_os w text) hg rfl
  · intro h1 h2 h3 h4 h5
    have hgwl : (is_wayland w && cmd_exists w Tool.wlCopy) = true := by
      simp [is_wayland, h1, h3]
    have hgxc : ((is_x11 w || is_wayland w) && cmd_exists w Tool.xclip) = true := by
      simp [is_x11, is_wayland, h1, h2, h4]
    refine ⟨attemptStep_mem_of_guard _ _ hgwl rfl, ?_⟩
    obtain ⟨hf, pre, hp⟩ := copy_not_succ_wl w text h5
    rw [hp]
    have hx : Event.writeAttempt Tool.xclip ∈ (cascade_xclip w text).2 :=
      attemptStep_mem_of_guard (verify_xclip_non_empty w) (cascade_xsel w text) hgxc rfl
    exact List.mem_append_right pre hx

/-- Witness for C6: an XWayland world (both indicator kinds set) attempts
both the wl-copy and the xclip backends. -/
theorem C6_witness :
    Event.writeAttempt Tool.wlCopy ∈
        (copy_to_clipboard_multi allPresentEmptyReadWorld "x").2 ∧
      Event.writeAttempt Tool.xclip ∈
        (copy_to_clipboard_multi allPresentEmptyReadWorld "x").2 :=
  (C6_environment_classification allPresentEmptyReadWorld "x").2.2.2.2.2.2.2
    (by decide) (by decide) (by decide) (by decide) (by decide)

/-- C7: run_with_stdin builds its command with stdin piped and stdout and
stderr discarded; a spawn error is returned as the write failure; and for
a spawned child whose stdin pipe is present, whose payload write
succeeded and whose wait produced a status, the call returns Ok exactly
when the child exited with a success status, a non-success status being
turned into an error carrying the status text. -/
theorem C7_run_with_stdin (bin : String) (args : List String) (data : String)
    (c : ChildState) (st : ExitStatus) :
    run_with_stdin_command bin args =
      { bin := bin, args := args, stdinMode := StdioMode.piped,
        stdoutMode := StdioMode.nullDev, stderrMode := StdioMode.nullDev } ∧
    (∀ e, run_with_stdin bin args data (SpawnResult.err e) = Except.error e) ∧
    (c.stdinSome = true → c.writeAll = Except.ok () → c.wait = Except.ok st →
      ((run_with_stdin bin args data (SpawnResult.ok c) = Except.ok ()) ↔
        st.success = true) ∧
      (st.success = false →
        run_with_stdin bin args data (SpawnResult.ok c) =
          Except.error (bin ++ (" exited with status ") ++ st.display))) := by
  refine ⟨rfl, fun e => rfl, ?_⟩
  intro h1 h2 h3
  obtain ⟨cs, cw, cwait⟩ := c
  dsimp only at h1 h2 h3
  subst h1
  subst h2
  subst h3
  have hred : run_with_stdin bin args data
      (SpawnResult.ok { stdinSome := true, writeAll := Except.ok (), wait := Except.ok st }) =
      if st.success then Except.ok ()
      else Except.error (bin ++ (" exited with status ") ++ st.display) := rfl
  rw [hred]
  cases hs : st.success with
  | true => simp [hs]
  | false => simp [hs]

/-- Witness for C7: a child that exits with status 1 makes run_with_stdin
return the error carrying that status. -/
theorem C7_witness :
    run_with_stdin ("pbcopy") [] "x"
        (SpawnResult.ok
          { stdinSome := true
            writeAll := Except.ok ()
            wait := Except.ok { success := false, display := ("exit status: 1") } }) =
      Except.error (("pbcopy") ++ (" exited with status ") ++ ("exit status: 1")) :=
  ((C7_run_with_stdin ("pbcopy") [] "x"
      { stdinSome := true
        writeAll := Except.ok ()
        wait := Except.ok { success := false, display := ("exit status: 1") } }
      { success := false, display := ("exit status: 1") }).2.2
    rfl rfl rfl).2 rfl

/-- C8: the program prints its full accumulated output to stdout as its
first effect, before any clipboard attempt; the stdout effects are
exactly that one print whatever the clipboard outcome is; and a total
clipboard failure only appends a warning line on stderr, the effect list
still completing normally. -/
theorem C8_clipboard_failure_nonfatal (w : World) (out : String) (copyFlag : Bool) :
    (main_tail w out copyFlag).head? = some (MainEffect.stdoutPrint out) ∧
    ((main_tail w out copyFlag).filterMap (fun ef =>
        match ef with
        | MainEffect.stdoutPrint s => some s
        | MainEffect.copyAttempt _ => none
        | MainEffect.stderrLine _ => none) = [out]) ∧
    (∀ e, (copy_to_clipboard_multi w out).1 = Except.error e →
      main_tail w out true =
        [MainEffect.stdoutPrint out, MainEffect.copyAttempt out,
         MainEffect.stderrLine ((">> failed to copy to clipboard: ") ++ e)]) := by
  refine ⟨rfl, ?_, ?_⟩
  · unfold main_tail
    cases copyFlag with
    | false => simp
    | true =>
      cases hr : (copy_to_clipboard_multi w out).1 with
      | error e => simp
      | ok u => simp
  · intro e he
    unfold main_tail
    rw [he]
    simp

/-- Witness for C8: with the macOS pbcopy-failure world the copy fails,
and the program still prints its output first and merely warns on
stderr. -/
theorem C8_witness :
    main_tail pbcopyFailWorld "out" true =
      [MainEffect.stdoutPrint "out", MainEffect.copyAttempt "out",
       MainEffect.stderrLine ((">> failed to copy to clipboard: ") ++
         ("pbcopy exited with status exit status: 1"))] :=
  (C8_clipboard_failure_nonfatal pbcopyFailWorld "out" true).2.2
    ("pbcopy exited with status exit status: 1") (by decide)

/-- Counterexample to C9 as stated: with the empty payload, a Wayland
world where wl-copy is present and functional but wl-paste is absent
yields overall success from the wl-copy backend itself (verification is
skipped and assumed okay), and the cascade never reaches the library
fallback — so a CLI backend with a read-back operation can produce
overall success for the empty payload. -/
theorem C9_counterexample :
    copy_to_clipboard_multi wlNoPasteWorld "" =
      (Except.ok (), [Event.writeAttempt Tool.wlCopy]) ∧
    Event.libAttempt ∉ (copy_to_clipboard_multi wlNoPasteWorld "").2 := by
  decide

/-- C9 (amended): for the empty payload, when the three read tools are
present and their invocations complete capturing zero bytes (which is
what reading back a just-written empty clipboard yields), no verified CLI
backend reports success: the cascade falls through past wl-copy, xclip
and xsel to the OS-specific step, and on targets without native tools the
library fallback is reached.  Amendment forced by the counterexample: if
a read tool is absent or its invocation errors, verification is
inconclusive and a successful write is accepted as success. -/
theorem C9_empty_payload_falls_through (w : World)
    (owl oxc oxs : OutputData)
    (hP1 : cmd_exists w Tool.wlPaste = true)
    (h1 : w.readOut Tool.wlPaste = OutputResult.ok owl) (h10 : owl.stdout = [])
    (h2 : w.readOut Tool.xclip = OutputResult.ok oxc) (h20 : oxc.stdout = [])
    (h3 : w.readOut Tool.xsel = OutputResult.ok oxs) (h30 : oxs.stdout = []) :
    (copy_to_clipboard_multi w "").1 = (cascade_os w "").1 ∧
    (∃ pre, (copy_to_clipboard_multi w "").2 = pre ++ (cascade_os w "").2) ∧
    (native_tools_absent w = true →
      Event.libAttempt ∈ (copy_to_clipboard_multi w "").2) := by
  have hv1 : (verify_wl_paste_non_empty w).1 = false := by
    unfold verify_wl_paste_non_empty
    rw [hP1]
    simp [h1, h10]
  have hv2 : (verify_xclip_non_empty w).1 = false := by
    unfold verify_xclip_non_empty
    rw [h2]
    simp [h20]
  have hv3 : (verify_xsel_non_empty w).1 = false := by
    unfold verify_xsel_non_empty
    rw [h3]
    simp [h30]
  have hw1 : wl_skipped_or_failed w "" = true := by
    unfold wl_skipped_or_failed step_skipped_or_failed
    cases hww : (wl_copy w "").1 <;> simp [hww, hv1]
  have hw2 : xclip_skipped_or_failed w "" = true := by
    unfold xclip_skipped_or_failed step_skipped_or_failed
    cases hww : (xclip_copy w "").1 <;> simp [hww, hv2]
  have hw3 : xsel_skipped_or_failed w "" = true := by
    unfold xsel_skipped_or_failed step_skipped_or_failed
    cases hww : (xsel_copy w "").1 <;> simp [hww, hv3]
  obtain ⟨hf, pre, hp⟩ := copy_reaches_os w "" hw1 hw2 hw3
  refine ⟨hf, ⟨pre, hp⟩, ?_⟩
  intro hn
  exact (copy_reaches_lib w "" hw1 hw2 hw3 hn).2

/-- Witness for C9's amended statement. -/
theorem C9_witness :
    (copy_to_clipboard_multi allPresentEmptyReadWorld "").1 =
        (cascade_os allPresentEmptyReadWorld "").1 ∧
    (∃ pre, (copy_to_clipboard_multi allPresentEmptyReadWorld "").2 =
        pre ++ (cascade_os allPresentEmptyReadWorld "").2) ∧
    (native_tools_absent allPresentEmptyReadWorld = true →
      Event.libAttempt ∈ (copy_to_clipboard_multi allPresentEmptyReadWorld "").2) :=
  C9_empty_payload_falls_through allPresentEmptyReadWorld
    { statusSuccess := true, stdout := [] }
    { statusSuccess := true, stdout := [] }
    { statusSuccess := true, stdout := [] }
    (by decide) (by decide) (by decide) (by decide) (by decide) (by decide) (by decide)

/-- C10: read-back verification decides solely on whether the captured
stdout is empty and ignores the read tool's exit status: whenever the
read invocation completes with output o, the verifier returns true
exactly when o's stdout is non-empty, irrespective of o's exit status
field. -/
theorem C10_verification_ignores_exit_status (w : World) (o : OutputData) :
    (cmd_exists w Tool.wlPaste = true →
      w.readOut Tool.wlPaste = OutputResult.ok o →
      ((verify_wl_paste_non_empty w).1 = true ↔ o.stdout ≠ [])) ∧
    (w.readOut Tool.xclip = OutputResult.ok o →
      ((verify_xclip_non_empty w).1 = true ↔ o.stdout ≠ [])) ∧
    (w.readOut Tool.xsel = OutputResult.ok o →
      ((verify_xsel_non_empty w).1 = true ↔ o.stdout ≠ [])) := by
  refine ⟨?_, ?_, ?_⟩
  · intro hp hr
    unfold verify_wl_paste_non_empty
    rw [hp, hr]
    simp
  · intro hr
    unfold verify_xclip_non_empty
    rw [hr]
    simp
  · intro hr
    unfold verify_xsel_non_empty
    rw [hr]
    simp

/-- Witness for C10: a read-back that exits with a non-success status but
prints one byte still verifies as non-empty. -/
theorem C10_witness :
    (verify_xclip_non_empty exitFailReadWorld).1 = true :=
  ((C10_verification_ignores_exit_status exitFailReadWorld
      { statusSuccess := false, stdout := [104] }).2.1 (by decide)).mpr (by decide)
